import Mathlib

/-!
Verification of the sensor ingestion, state-fusion and notification subsystem
of the rockfall monitoring backend.

The Python code is shallowly embedded: floats are modelled as rationals (ℚ),
mutable state as explicit state passing, the fallible `float()` conversion as
an `Option`-valued function, and the asynchronous workers as pure step
functions on the state.  `Rockfall.computeRisk` embeds `compute_risk` from
`backend/main.py`, `Rockfall.updateFromPayload` embeds
`SensorManager._update_from_payload` from `backend/sensors/manager.py`,
`Rockfall.wsBroadcast` embeds `_ws_broadcast`, and `Rockfall.sensorsWsConnect`
embeds the registration part of the `sensors_ws` websocket handler.
-/

namespace Rockfall

/-- Round a rational to the nearest integer, ties to even — the idealised
(decimal) semantics of Python's built-in `round`. -/
def roundHalfEven (q : ℚ) : ℤ :=
  if q - ⌊q⌋ < 1/2 then ⌊q⌋
  else if 1/2 < q - ⌊q⌋ then ⌊q⌋ + 1
  else if ⌊q⌋ % 2 = 0 then ⌊q⌋ else ⌊q⌋ + 1

/-- Python `round(q, 1)`. -/
def round1 (q : ℚ) : ℚ := (roundHalfEven (10 * q) : ℚ) / 10

/-- Python `round(q, 2)`. -/
def round2 (q : ℚ) : ℚ := (roundHalfEven (100 * q) : ℚ) / 100

/-- Python `float(x or 0.0)` applied to an optional numeric value:
`None` (and falsy `0.0`) becomes `0.0`. -/
def orZero : Option ℚ → ℚ := fun o => o.getD 0

/-- The `LocalSensors` dataclass of `backend/sensors/manager.py`:
the canonical in-memory SensorState.  `ts` is the epoch timestamp. -/
structure LocalSensors where
  tiltmeter : ℚ
  piezometer : ℚ
  vibration : ℚ
  crackmeter : ℚ
  status : String
  ts : ℚ
deriving DecidableEq

/-- The initial SensorState: the dataclass defaults, with `ts` set to the
process start time `t0` (`LocalSensors(ts=time.time())` in `__init__`). -/
def LocalSensors.init (t0 : ℚ) : LocalSensors :=
  { tiltmeter := 15, piezometer := 12, vibration := 8, crackmeter := 18
    status := "online", ts := t0 }

/-- The weather summary dict built by `fetch_open_meteo` and consumed by
`compute_risk`.  Each reading may be absent (`None`); `extra` stands for any
further keys of the dict, which `compute_risk` never reads. -/
structure Weather where
  temperature_c : Option ℚ
  humidity_pct : Option ℚ
  wind_speed_ms : Option ℚ
  precip_rate_mm : Option ℚ
  extra : List (String × ℚ)
deriving DecidableEq

/-- The seismic summary dict built by `fetch_usgs`, as read by
`compute_risk` (`strongest_mag`, `count_last_24h`). -/
structure Seismic where
  strongest_mag : Option ℚ
  count_last_24h : Option ℚ
deriving DecidableEq

/-- The `factors` mapping of the dict returned by `compute_risk`. -/
structure RiskFactors where
  rain_24h : ℚ
  precip_rate : ℚ
  wind_speed : ℚ
  seismic_strongest_mag : ℚ
  seismic_count_24h : ℚ
  local_factor : ℚ
deriving DecidableEq

/-- The dict returned by `compute_risk`. -/
structure RiskAssessment where
  score : ℚ
  level : String
  factors : RiskFactors
deriving DecidableEq

/-- `rain_factor = min(100.0, rain_24h * 4.0)` in `compute_risk`. -/
def rainFactor (rain_24h : ℚ) : ℚ := min 100 (rain_24h * 4)

/-- `rate_boost = min(30.0, precip_rate * 6.0)` in `compute_risk`. -/
def rateBoost (precip_rate : ℚ) : ℚ := min 30 (precip_rate * 6)

/-- `wind_factor = min(30.0, wind * 1.5)` in `compute_risk`. -/
def windFactor (wind : ℚ) : ℚ := min 30 (wind * (3/2))

/-- `seismic_factor = min(100.0, seis_mag*15.0 + min(20.0, seis_count*1.5))`
in `compute_risk`. -/
def seismicFactor (seis_mag seis_count : ℚ) : ℚ :=
  min 100 (seis_mag * 15 + min 20 (seis_count * (3/2)))

/-- The local sensor factor of `compute_risk`: each reading is divided by its
threshold, floored at 0, weighted, summed, capped at 100. -/
def localFactor (s : LocalSensors) : ℚ :=
  min 100
    (max 0 (s.crackmeter / 25) * 60 +
     max 0 (s.vibration / 12) * 20 +
     max 0 (s.piezometer / 20) * 10 +
     max 0 (s.tiltmeter / 25) * 10)

/-- The exact (unrounded) clamped score computed by `compute_risk`:
`score = max(0.0, min(100.0, 0.4*(rain_factor + rate_boost)
+ 0.25*seismic_factor + 0.15*wind_factor + 0.20*local_factor))`. -/
def exactScore (wx : Weather) (rain_24h : ℚ) (seismic : Seismic)
    (localS : LocalSensors) : ℚ :=
  max 0 (min 100
    ((2/5) * (rainFactor rain_24h + rateBoost (orZero wx.precip_rate_mm)) +
     (1/4) * seismicFactor (orZero seismic.strongest_mag)
       (orZero seismic.count_last_24h) +
     (3/20) * windFactor (orZero wx.wind_speed_ms) +
     (1/5) * localFactor localS))

/-- `compute_risk(wx, rain_24h, seismic, local)` of `backend/main.py`:
the returned dict has the score rounded to one decimal, the level computed
from the unrounded clamped score, and the surfaced factors. -/
def computeRisk (wx : Weather) (rain_24h : ℚ) (seismic : Seismic)
    (localS : LocalSensors) : RiskAssessment :=
  { score := round1 (exactScore wx rain_24h seismic localS)
    level :=
      if exactScore wx rain_24h seismic localS ≥ 70 then "HIGH"
      else if exactScore wx rain_24h seismic localS ≥ 40 then "MEDIUM"
      else "LOW"
    factors :=
      { rain_24h := round2 rain_24h
        precip_rate := orZero wx.precip_rate_mm
        wind_speed := orZero wx.wind_speed_ms
        seismic_strongest_mag := orZero seismic.strongest_mag
        seismic_count_24h := orZero seismic.count_last_24h
        local_factor := round1 (localFactor localS) } }

/-- The score as the specification document states it, written out from the
words of §4.4 of the design (a second, spec-side definition used to compare
the code against the spec): `clamp(0.4*(rainFactor+rateBoost)
+ 0.25*seismicFactor + 0.15*windFactor + 0.20*localFactor, 0, 100)` with
`rainFactor = min(100, rain24h*4)`, `rateBoost = min(30, precipRate*6)`,
`windFactor = min(30, windSpeed*1.5)`,
`seismicFactor = min(100, strongestMagnitude*15 + min(20, eventCount24h*1.5))`,
`localFactor = min(100, (crackmeter/25)*60 + (vibration/12)*20
+ (piezometer/20)*10 + (tiltmeter/25)*10)` with each local ratio floored
at 0 before weighting. -/
def specScore (wx : Weather) (rain24h : ℚ) (seismic : Seismic)
    (localS : LocalSensors) : ℚ :=
  let precipRate := orZero wx.precip_rate_mm
  let windSpeed := orZero wx.wind_speed_ms
  let strongestMagnitude := orZero seismic.strongest_mag
  let eventCount24h := orZero seismic.count_last_24h
  let rainF := min 100 (rain24h * 4)
  let rateB := min 30 (precipRate * 6)
  let windF := min 30 (windSpeed * (3/2))
  let seisF := min 100 (strongestMagnitude * 15 + min 20 (eventCount24h * (3/2)))
  let localF := min 100
    (max 0 (localS.crackmeter / 25) * 60 +
     max 0 (localS.vibration / 12) * 20 +
     max 0 (localS.piezometer / 20) * 10 +
     max 0 (localS.tiltmeter / 25) * 10)
  max 0 (min 100
    ((2/5) * (rainF + rateB) + (1/4) * seisF + (3/20) * windF + (1/5) * localF))

/-- A JSON field value as seen by the update path, classified by what
Python's `float()` does to it: `pnum q` is a value `float()` converts to the
number `q` (JSON numbers, booleans and numeric strings), `pbad` is a value
on which `float()` raises (non-numeric strings, `null`, arrays, objects). -/
inductive PyVal where
  | pnum (q : ℚ)
  | pbad
deriving DecidableEq

/-- Whether `float()` succeeds on the value. -/
def PyVal.isNum : PyVal → Bool
  | .pnum _ => true
  | .pbad => false

/-- A decoded inbound frame (the dict produced by `json.loads`) as consumed
by `SensorManager._update_from_payload`: each recognised key may be absent;
`status` is modelled by the string `str()` produces for it (`str()` is total);
`extra` stands for any unrecognised keys, which the update never reads. -/
structure RawPayload where
  tiltmeter : Option PyVal
  piezometer : Option PyVal
  vibration : Option PyVal
  crackmeter : Option PyVal
  status : Option String
  extra : List (String × String)
deriving DecidableEq

/-- `float(payload.get(key, cur))`: absent key keeps the current value
(already a float), a present numeric value converts, a present
non-convertible value raises (`none`). -/
def floatOf (cur : ℚ) : Option PyVal → Option ℚ
  | none => some cur
  | some (.pnum q) => some q
  | some .pbad => none

/-- All present recognised numeric fields of the payload are
`float()`-convertible. -/
def numericOk (p : RawPayload) : Bool :=
  p.tiltmeter.all PyVal.isNum && p.piezometer.all PyVal.isNum &&
  p.vibration.all PyVal.isNum && p.crackmeter.all PyVal.isNum

/-- Outcome of one call to `_update_from_payload`: the SensorState after the
call, whether an exception propagated to the caller, and whether the
`on_update` notification callback was invoked. -/
structure UpdateOutcome where
  state : LocalSensors
  raised : Bool
  notified : Bool
deriving DecidableEq

/-- `SensorManager._update_from_payload(payload)` of
`backend/sensors/manager.py`.  The fields are assigned in source order
(tiltmeter, piezometer, vibration, crackmeter, status, ts); a failing
`float()` conversion raises at that point, leaving the later fields (and
`ts`, `status`) untouched but keeping the assignments already made.  On
success `ts` is set to the current time `now` and the callback is invoked;
an exception raised by the callback (`cbRaises`) is swallowed
(`try/except: pass`) and never changes the outcome. -/
def updateFromPayload (s : LocalSensors) (p : RawPayload) (now : ℚ)
    (cbRaises : Bool) : UpdateOutcome :=
  match floatOf s.tiltmeter p.tiltmeter with
  | none => ⟨s, true, false⟩
  | some t =>
    let s1 := { s with tiltmeter := t }
    match floatOf s1.piezometer p.piezometer with
    | none => ⟨s1, true, false⟩
    | some pz =>
      let s2 := { s1 with piezometer := pz }
      match floatOf s2.vibration p.vibration with
      | none => ⟨s2, true, false⟩
      | some vb =>
        let s3 := { s2 with vibration := vb }
        match floatOf s3.crackmeter p.crackmeter with
        | none => ⟨s3, true, false⟩
        | some ck =>
          let _ := cbRaises
          let s4 := { s3 with crackmeter := ck
                              status := p.status.getD s3.status
                              ts := now }
          ⟨s4, false, true⟩

/-- The merged state on the success path: every present field overwritten by
the payload's value, absent fields kept, `ts` set to `now`. -/
def mergePayload (s : LocalSensors) (p : RawPayload) (now : ℚ) : LocalSensors :=
  { tiltmeter :=
      match p.tiltmeter with | some (.pnum q) => q | _ => s.tiltmeter
    piezometer :=
      match p.piezometer with | some (.pnum q) => q | _ => s.piezometer
    vibration :=
      match p.vibration with | some (.pnum q) => q | _ => s.vibration
    crackmeter :=
      match p.crackmeter with | some (.pnum q) => q | _ => s.crackmeter
    status := p.status.getD s.status
    ts := now }

/-- One iteration of the message loop in `SensorManager._mqtt_worker`:
`frame = none` models a message whose decode (`json.loads`) raised — it is
skipped (`except Exception: continue`); a decoded payload is passed to
`_update_from_payload`, whose exceptions the same handler also catches.
Returns the SensorState after the iteration and whether the notification
callback was invoked. -/
def mqttStep (s : LocalSensors) (frame : Option RawPayload) (now : ℚ)
    (cbRaises : Bool) : LocalSensors × Bool :=
  match frame with
  | none => (s, false)
  | some p =>
    let o := updateFromPayload s p now cbRaises
    (o.state, o.notified)

/-- One iteration of the read loop in `SensorManager._serial_blocking_loop`:
a line that fails to parse is skipped (`except Exception: continue`); a
parsed payload is handed to `_update_from_payload` on the event loop. -/
def serialStep (s : LocalSensors) (frame : Option RawPayload) (now : ℚ)
    (cbRaises : Bool) : LocalSensors × Bool :=
  match frame with
  | none => (s, false)
  | some p =>
    let o := updateFromPayload s p now cbRaises
    (o.state, o.notified)

/-- The SensorState reached from `s` after a sequence of inbound frames
(each paired with its arrival time), processed by the worker loop. -/
def runUpdates (s : LocalSensors) (frames : List (Option RawPayload × ℚ)) :
    LocalSensors :=
  frames.foldl (fun st f => (mqttStep st f.1 f.2 false).1) s

/-- The status strings the specification's enum allows. -/
def validStatus (st : String) : Bool :=
  st == "online" || st == "degraded" || st == "offline"

/-- Whether a frame's status field (when the frame decodes and the field is
present) is one of the allowed status strings. -/
def frameStatusOk (f : Option RawPayload × ℚ) : Bool :=
  match f.1 with
  | none => true
  | some p => p.status.all validStatus

/-- One call to `_ws_broadcast(text)` over the registered client set
(modelled as a list of client ids with a send outcome `sendOk` per client):
the loop body sends to each client in turn, collecting the clients whose
send raised into `dead`; returns the successful deliveries (client paired
with the text it received) and the collected `dead` list. -/
def broadcastLoop (clients : List ℕ) (sendOk : ℕ → Bool) (text : String) :
    List (ℕ × String) × List ℕ :=
  clients.foldl
    (fun acc ws =>
      if sendOk ws then (acc.1 ++ [(ws, text)], acc.2)
      else (acc.1, acc.2 ++ [ws]))
    ([], [])

/-- `_ws_broadcast(text)` of `backend/main.py`: iterate all clients
attempting the send, then discard every dead client from the set.  Returns
the successful deliveries and the client set after the call. -/
def wsBroadcast (clients : List ℕ) (sendOk : ℕ → Bool) (text : String) :
    List (ℕ × String) × List ℕ :=
  let r := broadcastLoop clients sendOk text
  (r.1, clients.filter (fun ws => !r.2.contains ws))

/-- The registration part of the `sensors_ws` handler of `backend/main.py`:
`accept` the connection, add `ws` to `WS_CLIENTS`, then send the initial
snapshot *outside* any try block.  Returns the client set after this phase
and whether the handler raised (it raises exactly when the initial send
fails; the failing client is NOT removed here). -/
def sensorsWsConnect (clients : List ℕ) (ws : ℕ) (initialSendOk : Bool) :
    List ℕ × Bool :=
  (clients ++ [ws], !initialSendOk)

/-- The disconnect path of `sensors_ws`: `WebSocketDisconnect` is caught and
the client is discarded from the set. -/
def sensorsWsDisconnect (clients : List ℕ) (ws : ℕ) : List ℕ :=
  clients.filter (fun c => c ≠ ws)

/-- A weather summary with every reading absent (each contributes zero). -/
def emptyWeather : Weather := ⟨none, none, none, none, []⟩

/-- A seismic summary with both readings absent. -/
def emptySeismic : Seismic := ⟨none, none⟩

/-- A SensorState with all four readings zero. -/
def zeroSensors : LocalSensors := ⟨0, 0, 0, 0, "online", 0⟩

/-- The score the specification states and the score the code computes agree
before rounding: `specScore` (written from the spec's words) and
`exactScore` (written from the code) are the same function. -/
theorem specScore_eq_exactScore (wx : Weather) (rain : ℚ) (seismic : Seismic)
    (localS : LocalSensors) :
    specScore wx rain seismic localS = exactScore wx rain seismic localS := rfl

/-- C1: the claim that the returned `score` field equals the exact clamped
weighted sum is false — the code rounds the score to one decimal before
returning it.  At rain24h = 0.01 and every other input absent or zero the
exact formula gives 0.016 but the returned score is 0.0. -/
theorem c1_score_not_exact_cex :
    (computeRisk emptyWeather (1/100) emptySeismic zeroSensors).score
      ≠ specScore emptyWeather (1/100) emptySeismic zeroSensors := by
  norm_num [computeRisk, specScore, exactScore, rainFactor, rateBoost,
    windFactor, seismicFactor, localFactor, orZero, round1, roundHalfEven,
    emptyWeather, emptySeismic, zeroSensors]

/-- C1 (amended): the returned `score` equals the spec's clamped weighted
sum rounded to one decimal place, and the returned `level` is HIGH/MEDIUM/LOW
by comparing the unrounded clamped spec score against 70 and 40. -/
theorem c1_compute_risk_formula (wx : Weather) (rain_24h : ℚ)
    (seismic : Seismic) (localS : LocalSensors) :
    (computeRisk wx rain_24h seismic localS).score
        = round1 (specScore wx rain_24h seismic localS) ∧
    (computeRisk wx rain_24h seismic localS).level
        = (if specScore wx rain_24h seismic localS ≥ 70 then "HIGH"
           else if specScore wx rain_24h seismic localS ≥ 40 then "MEDIUM"
           else "LOW") :=
  ⟨rfl, rfl⟩

/-- Replacing a nonpositive crackmeter reading by zero does not change the
local factor (the code floors each local ratio at 0). -/
theorem localFactor_crackmeter_floor (ls : LocalSensors)
    (h : ls.crackmeter ≤ 0) :
    localFactor { ls with crackmeter := 0 } = localFactor ls := by
  have : max (0:ℚ) (ls.crackmeter / 25) = 0 :=
    max_eq_left (div_nonpos_of_nonpos_of_nonneg h (by norm_num))
  simp [localFactor, this]

/-- Replacing a nonpositive vibration reading by zero does not change the
local factor. -/
theorem localFactor_vibration_floor (ls : LocalSensors)
    (h : ls.vibration ≤ 0) :
    localFactor { ls with vibration := 0 } = localFactor ls := by
  have : max (0:ℚ) (ls.vibration / 12) = 0 :=
    max_eq_left (div_nonpos_of_nonpos_of_nonneg h (by norm_num))
  simp [localFactor, this]

/-- Replacing a nonpositive piezometer reading by zero does not change the
local factor. -/
theorem localFactor_piezometer_floor (ls : LocalSensors)
    (h : ls.piezometer ≤ 0) :
    localFactor { ls with piezometer := 0 } = localFactor ls := by
  have : max (0:ℚ) (ls.piezometer / 20) = 0 :=
    max_eq_left (div_nonpos_of_nonpos_of_nonneg h (by norm_num))
  simp [localFactor, this]

/-- Replacing a nonpositive tiltmeter reading by zero does not change the
local factor. -/
theorem localFactor_tiltmeter_floor (ls : LocalSensors)
    (h : ls.tiltmeter ≤ 0) :
    localFactor { ls with tiltmeter := 0 } = localFactor ls := by
  have : max (0:ℚ) (ls.tiltmeter / 25) = 0 :=
    max_eq_left (div_nonpos_of_nonpos_of_nonneg h (by norm_num))
  simp [localFactor, this]

/-- C6: the claim that every negative numeric input contributes zero exactly
as if it were 0 is false for the weather/seismic inputs: with rain24h = -1
(and strongest magnitude 4, everything else zero) the score is 13.4, while
with rain24h = 0 it is 15 — the negative rainfall reduced the score instead
of contributing zero. -/
theorem c6_negative_rain_not_zero_cex :
    (computeRisk emptyWeather (-1) ⟨some 4, some 0⟩ zeroSensors).score
      ≠ (computeRisk emptyWeather 0 ⟨some 4, some 0⟩ zeroSensors).score := by
  norm_num [computeRisk, exactScore, rainFactor, rateBoost, windFactor,
    seismicFactor, localFactor, orZero, round1, roundHalfEven,
    emptyWeather, zeroSensors]

/-- C6 (amended): only the four local sensor readings are floored at zero —
a negative local reading contributes exactly as a zero reading does, and the
fused result is identical; the final clamp keeps the exact score
nonnegative (and at most 100), so the weather/seismic inputs, which are not
floored, can drag the score down only to 0; the fusion function is total. -/
theorem c6_negative_local_readings_clamped (wx : Weather) (rain : ℚ)
    (seis : Seismic) (ls : LocalSensors) :
    (ls.crackmeter ≤ 0 →
      computeRisk wx rain seis { ls with crackmeter := 0 }
        = computeRisk wx rain seis ls) ∧
    (ls.vibration ≤ 0 →
      computeRisk wx rain seis { ls with vibration := 0 }
        = computeRisk wx rain seis ls) ∧
    (ls.piezometer ≤ 0 →
      computeRisk wx rain seis { ls with piezometer := 0 }
        = computeRisk wx rain seis ls) ∧
    (ls.tiltmeter ≤ 0 →
      computeRisk wx rain seis { ls with tiltmeter := 0 }
        = computeRisk wx rain seis ls) ∧
    0 ≤ exactScore wx rain seis ls ∧ exactScore wx rain seis ls ≤ 100 := by
  refine ⟨fun h => ?_, fun h => ?_, fun h => ?_, fun h => ?_, ?_, ?_⟩
  · simp [computeRisk, exactScore, localFactor_crackmeter_floor ls h]
  · simp [computeRisk, exactScore, localFactor_vibration_floor ls h]
  · simp [computeRisk, exactScore, localFactor_piezometer_floor ls h]
  · simp [computeRisk, exactScore, localFactor_tiltmeter_floor ls h]
  · exact le_max_left 0 _
  · exact max_le (by norm_num) (min_le_left _ _)

/-- C6 witness: a concrete negative crackmeter reading gives the same
RiskAssessment as a zero one. -/
theorem c6_negative_local_readings_clamped_witness :
    computeRisk emptyWeather 2 emptySeismic ⟨1, 2, 3, 0, "online", 0⟩
      = computeRisk emptyWeather 2 emptySeismic ⟨1, 2, 3, -5, "online", 0⟩ :=
  (c6_negative_local_readings_clamped emptyWeather 2 emptySeismic
    ⟨1, 2, 3, -5, "online", 0⟩).1 (by norm_num)

/-- C9: the risk result depends on the weather summary only through
`precip_rate_mm` and `wind_speed_ms`: two weather summaries agreeing on
those two keys — whatever their `temperature_c`, `humidity_pct` and any
other keys — give identical RiskAssessments. -/
theorem c9_temperature_humidity_no_influence (wx wx' : Weather) (rain : ℚ)
    (seis : Seismic) (ls : LocalSensors)
    (hp : wx.precip_rate_mm = wx'.precip_rate_mm)
    (hw : wx.wind_speed_ms = wx'.wind_speed_ms) :
    computeRisk wx rain seis ls = computeRisk wx' rain seis ls := by
  simp [computeRisk, exactScore, hp, hw]

/-- C9 witness: two concrete weather summaries differing in temperature,
humidity and an unrelated extra key give the same RiskAssessment. -/
theorem c9_temperature_humidity_no_influence_witness :
    computeRisk ⟨some 10, some 50, some 2, some 3, []⟩ 5 emptySeismic zeroSensors
      = computeRisk ⟨some 99, none, some 2, some 3, [("uv_index", 7)]⟩ 5
          emptySeismic zeroSensors :=
  c9_temperature_humidity_no_influence _ _ 5 emptySeismic zeroSensors rfl rfl

/-- C10: the level is computed from the unrounded clamped score while the
returned score is rounded to one decimal: at the concrete input below the
exact score is 69.96 ∈ [69.95, 70), yet the returned score field is 70.0
with level MEDIUM; likewise at the 40 boundary an exact score of 39.96
returns score 40.0 with level LOW. -/
theorem c10_rounded_score_breaks_boundary_relation :
    ((1399/20 : ℚ) ≤ exactScore emptyWeather 25 ⟨some 6, some 10⟩
        ⟨62, 0, 0, 0, "online", 0⟩ ∧
      exactScore emptyWeather 25 ⟨some 6, some 10⟩
        ⟨62, 0, 0, 0, "online", 0⟩ < 70 ∧
      (computeRisk emptyWeather 25 ⟨some 6, some 10⟩
        ⟨62, 0, 0, 0, "online", 0⟩).score = 70 ∧
      (computeRisk emptyWeather 25 ⟨some 6, some 10⟩
        ⟨62, 0, 0, 0, "online", 0⟩).level = "MEDIUM") ∧
    ((799/20 : ℚ) ≤ exactScore emptyWeather (999/40) emptySeismic zeroSensors ∧
      exactScore emptyWeather (999/40) emptySeismic zeroSensors < 40 ∧
      (computeRisk emptyWeather (999/40) emptySeismic zeroSensors).score
        = 40 ∧
      (computeRisk emptyWeather (999/40) emptySeismic zeroSensors).level
        = "LOW") := by
  norm_num [computeRisk, exactScore, rainFactor, rateBoost, windFactor,
    seismicFactor, localFactor, orZero, round1, roundHalfEven,
    emptyWeather, emptySeismic, zeroSensors]

/-- On a payload whose present numeric values all convert,
`_update_from_payload` returns normally with the merged state and invokes
the notification callback. -/
theorem update_ok (s : LocalSensors) (p : RawPayload) (now : ℚ) (cb : Bool)
    (h : numericOk p = true) :
    updateFromPayload s p now cb = ⟨mergePayload s p now, false, true⟩ := by
  obtain ⟨t, pz, vb, ck, st, ex⟩ := p
  rcases t with _ | (q1 | _) <;> rcases pz with _ | (q2 | _) <;>
    rcases vb with _ | (q3 | _) <;> rcases ck with _ | (q4 | _) <;>
    simp_all [numericOk, PyVal.isNum, updateFromPayload, floatOf, mergePayload]

/-- C2: on a payload whose present values are numeric, the update sets
exactly the present fields to the payload's values, leaves every absent
field unchanged, ignores unknown fields, and sets `ts` to the current time,
which (the wall clock being monotone, `s.ts ≤ now`) only moves forward. -/
theorem c2_update_merge_by_presence (s : LocalSensors) (p : RawPayload)
    (now : ℚ) (cb : Bool) (hnum : numericOk p = true) (hts : s.ts ≤ now) :
    (updateFromPayload s p now cb).state.ts = now ∧
    s.ts ≤ (updateFromPayload s p now cb).state.ts ∧
    (p.tiltmeter = none →
      (updateFromPayload s p now cb).state.tiltmeter = s.tiltmeter) ∧
    (∀ q, p.tiltmeter = some (.pnum q) →
      (updateFromPayload s p now cb).state.tiltmeter = q) ∧
    (p.piezometer = none →
      (updateFromPayload s p now cb).state.piezometer = s.piezometer) ∧
    (∀ q, p.piezometer = some (.pnum q) →
      (updateFromPayload s p now cb).state.piezometer = q) ∧
    (p.vibration = none →
      (updateFromPayload s p now cb).state.vibration = s.vibration) ∧
    (∀ q, p.vibration = some (.pnum q) →
      (updateFromPayload s p now cb).state.vibration = q) ∧
    (p.crackmeter = none →
      (updateFromPayload s p now cb).state.crackmeter = s.crackmeter) ∧
    (∀ q, p.crackmeter = some (.pnum q) →
      (updateFromPayload s p now cb).state.crackmeter = q) ∧
    (p.status = none → (updateFromPayload s p now cb).state.status = s.status) ∧
    (∀ st, p.status = some st →
      (updateFromPayload s p now cb).state.status = st) ∧
    (∀ e, updateFromPayload s { p with extra := e } now cb
      = updateFromPayload s p now cb) := by
  have hu := update_ok s p now cb hnum
  refine ⟨by rw [hu]; rfl, ?_, ?_, ?_, ?_, ?_, ?_, ?_, ?_, ?_, ?_, ?_, ?_⟩
  · rw [hu]; exact hts
  · intro h; rw [hu]; simp [mergePayload, h]
  · intro q h; rw [hu]; simp [mergePayload, h]
  · intro h; rw [hu]; simp [mergePayload, h]
  · intro q h; rw [hu]; simp [mergePayload, h]
  · intro h; rw [hu]; simp [mergePayload, h]
  · intro q h; rw [hu]; simp [mergePayload, h]
  · intro h; rw [hu]; simp [mergePayload, h]
  · intro q h; rw [hu]; simp [mergePayload, h]
  · intro h; rw [hu]; simp [mergePayload, h]
  · intro st h; rw [hu]; simp [mergePayload, h]
  · intro e; rfl

/-- C2 witness: at a concrete payload carrying only a tiltmeter reading and
a status, the updated state's `ts` is the update time. -/
theorem c2_update_merge_by_presence_witness :
    (updateFromPayload (LocalSensors.init 0)
      ⟨some (.pnum 1), none, none, none, some "degraded", []⟩ 5 false).state.ts
      = 5 :=
  (c2_update_merge_by_presence (LocalSensors.init 0)
    ⟨some (.pnum 1), none, none, none, some "degraded", []⟩ 5 false
    (by decide) (by norm_num [LocalSensors.init])).1

/-- C4: the claim that `_update_from_payload` never raises to the caller is
false — `float()` raises on a present non-convertible value, and the
exception propagates out (the worker loops catch it upstream). -/
theorem c4_update_raises_cex :
    (updateFromPayload (LocalSensors.init 0)
      ⟨none, some .pbad, none, none, none, []⟩ 1 false).raised = true := by
  decide

/-- C4 (amended): `_update_from_payload` raises to the calling worker
exactly when some present field value is not `float()`-convertible; when all
present values convert it returns normally, and an exception raised by the
notification callback is swallowed — the outcome never depends on whether
the callback raises. -/
theorem c4_update_error_contract (s : LocalSensors) (p : RawPayload)
    (now : ℚ) (cb cb' : Bool) :
    (updateFromPayload s p now cb).raised = !numericOk p ∧
    updateFromPayload s p now cb = updateFromPayload s p now cb' := by
  constructor
  · obtain ⟨t, pz, vb, ck, st, ex⟩ := p
    rcases t with _ | (q1 | _) <;> rcases pz with _ | (q2 | _) <;>
      rcases vb with _ | (q3 | _) <;> rcases ck with _ | (q4 | _) <;>
      simp [numericOk, PyVal.isNum, updateFromPayload, floatOf]
  · rfl

/-- C5: the claim that every malformed frame leaves the SensorState fully
unchanged is false — a frame that is valid JSON but whose second field fails
`float()` conversion still overwrites the fields converted before it:
`{"tiltmeter": 5, "piezometer": <bad>}` changes the state. -/
theorem c5_state_changed_by_bad_frame_cex :
    (mqttStep (LocalSensors.init 0)
      (some ⟨some (.pnum 5), some .pbad, none, none, none, []⟩) 1 false).1
      ≠ LocalSensors.init 0 := by
  decide

/-- C5 (amended): a frame that fails to decode as JSON leaves the state
unchanged and triggers no notification, on both ingestion paths; a decoded
frame with a non-convertible field value also triggers no notification and
leaves `ts` and `status` unchanged, but the numeric fields it converted
before the failure are already overwritten (the serial path behaving
exactly as the MQTT path). -/
theorem c5_malformed_frames_dropped (s : LocalSensors) (now : ℚ) (cb : Bool) :
    mqttStep s none now cb = (s, false) ∧
    serialStep s none now cb = (s, false) ∧
    (∀ p : RawPayload, numericOk p = false →
      (mqttStep s (some p) now cb).2 = false ∧
      (mqttStep s (some p) now cb).1.ts = s.ts ∧
      (mqttStep s (some p) now cb).1.status = s.status ∧
      serialStep s (some p) now cb = mqttStep s (some p) now cb) := by
  refine ⟨rfl, rfl, ?_⟩
  intro p h
  obtain ⟨t, pz, vb, ck, st, ex⟩ := p
  rcases t with _ | (q1 | _) <;> rcases pz with _ | (q2 | _) <;>
    rcases vb with _ | (q3 | _) <;> rcases ck with _ | (q4 | _) <;>
    simp_all [numericOk, PyVal.isNum, mqttStep, serialStep,
      updateFromPayload, floatOf]

/-- C5 witness: a concrete frame with a bad piezometer value produces no
notification. -/
theorem c5_malformed_frames_dropped_witness :
    (mqttStep (LocalSensors.init 0)
      (some ⟨some (.pnum 5), some .pbad, none, none, none, []⟩) 1 false).2
      = false :=
  ((c5_malformed_frames_dropped (LocalSensors.init 0) 1 false).2.2
    ⟨some (.pnum 5), some .pbad, none, none, none, []⟩ (by decide)).1

/-- After any single update the status is either the previous status or the
payload's status field (when present): the code stores `str()` of whatever
the payload provides, with no validation. -/
theorem update_status_cases (s : LocalSensors) (p : RawPayload) (now : ℚ)
    (cb : Bool) :
    (updateFromPayload s p now cb).state.status = s.status ∨
    (updateFromPayload s p now cb).state.status = p.status.getD s.status := by
  obtain ⟨t, pz, vb, ck, st, ex⟩ := p
  rcases t with _ | (q1 | _) <;> rcases pz with _ | (q2 | _) <;>
    rcases vb with _ | (q3 | _) <;> rcases ck with _ | (q4 | _) <;>
    simp [updateFromPayload, floatOf]

/-- C8: the claim that no update can store a status outside
{online, degraded, offline} is false — a single update whose frame carries
`"status": "banana"` stores that string verbatim. -/
theorem c8_status_not_validated_cex :
    validStatus (runUpdates (LocalSensors.init 0)
      [(some ⟨none, none, none, none, some "banana", []⟩, 1)]).status
      = false := by
  decide

/-- C8 (amended): status strings are stored unvalidated, so the status field
stays inside the enum {online, degraded, offline} only conditionally: it
starts there (`online` at init) and remains there as long as every applied
frame's status field, when present, is itself one of the three values. -/
theorem c8_status_enum_conditional (s : LocalSensors)
    (frames : List (Option RawPayload × ℚ))
    (hs : validStatus s.status = true)
    (hf : frames.all frameStatusOk = true) :
    validStatus (runUpdates s frames).status = true := by
  induction frames generalizing s with
  | nil => simpa [runUpdates] using hs
  | cons f fs ih =>
    rw [List.all_cons, Bool.and_eq_true] at hf
    have hstep : validStatus (mqttStep s f.1 f.2 false).1.status = true := by
      rcases f with ⟨frame, tm⟩
      rcases frame with _ | p
      · simpa [mqttStep] using hs
      · have hc := update_status_cases s p tm false
        rcases hc with hc | hc <;> simp only [mqttStep] <;> rw [hc]
        · exact hs
        · rcases hp : p.status with _ | st
          · simpa [hp] using hs
          · have := hf.1
            simp_all [frameStatusOk, hp]
    have : runUpdates s (f :: fs) = runUpdates (mqttStep s f.1 f.2 false).1 fs := by
      simp [runUpdates]
    rw [this]
    exact ih _ hstep hf.2

/-- C8 witness: from the initial state, applying one frame whose status is
`degraded` keeps the status inside the enum. -/
theorem c8_status_enum_conditional_witness :
    validStatus (runUpdates (LocalSensors.init 0)
      [(some ⟨none, none, none, none, some "degraded", []⟩, 1)]).status
      = true :=
  c8_status_enum_conditional (LocalSensors.init 0)
    [(some ⟨none, none, none, none, some "degraded", []⟩, 1)]
    (by decide) (by decide)

/-- The broadcast loop with an arbitrary accumulator: it appends the
successful sends to the first component and the failing clients to the
second, in iteration order. -/
theorem broadcastLoop_general (clients : List ℕ) (sendOk : ℕ → Bool)
    (text : String) (acc : List (ℕ × String) × List ℕ) :
    clients.foldl
      (fun acc ws =>
        if sendOk ws then (acc.1 ++ [(ws, text)], acc.2)
        else (acc.1, acc.2 ++ [ws])) acc
      = (acc.1 ++ (clients.filter sendOk).map (fun ws => (ws, text)),
         acc.2 ++ clients.filter (fun ws => !sendOk ws)) := by
  induction clients generalizing acc with
  | nil => simp
  | cons c cs ih =>
    by_cases h : sendOk c = true <;>
      simp [List.foldl_cons, h, ih, List.filter_cons]

/-- The broadcast loop delivers `text` to exactly the clients whose send
succeeds and collects exactly the failing clients as dead. -/
theorem broadcastLoop_eq (clients : List ℕ) (sendOk : ℕ → Bool)
    (text : String) :
    broadcastLoop clients sendOk text
      = ((clients.filter sendOk).map (fun ws => (ws, text)),
         clients.filter (fun ws => !sendOk ws)) := by
  simpa [broadcastLoop] using
    broadcastLoop_general clients sendOk text ([], [])

/-- A registered client survives a broadcast call exactly when its send
succeeded. -/
theorem broadcast_after_mem (clients : List ℕ) (sendOk : ℕ → Bool)
    (text : String) (ws : ℕ) (hin : ws ∈ clients) :
    ws ∈ (wsBroadcast clients sendOk text).2 ↔ sendOk ws = true := by
  by_cases h : sendOk ws = true <;>
    simp [wsBroadcast, broadcastLoop_eq, List.mem_filter, List.elem_iff,
      hin, h]

/-- A delivery is made to exactly the clients whose send succeeds, and every
delivery carries the broadcast text. -/
theorem broadcast_delivered_iff (clients : List ℕ) (sendOk : ℕ → Bool)
    (text : String) (ws : ℕ) (t : String) :
    (ws, t) ∈ (wsBroadcast clients sendOk text).1
      ↔ ws ∈ clients ∧ sendOk ws = true ∧ t = text := by
  simp only [wsBroadcast, broadcastLoop_eq, List.mem_map, List.mem_filter,
    Prod.mk.injEq]
  constructor
  · rintro ⟨w, ⟨hw, hok⟩, rfl, rfl⟩
    exact ⟨hw, hok, rfl⟩
  · rintro ⟨hw, hok, rfl⟩
    exact ⟨ws, ⟨hw, hok⟩, rfl, rfl⟩

/-- C3: one `_ws_broadcast` call attempts the same serialized text to every
registered observer; every delivery made carries that text; an observer
whose send succeeds both received the text and is still registered after
the call; an observer whose send fails is absent from the registered set
immediately after the call — and failures never prevent delivery to the
others. -/
theorem c3_broadcast_isolation (clients : List ℕ) (sendOk : ℕ → Bool)
    (text : String) :
    (∀ d ∈ (wsBroadcast clients sendOk text).1, d.2 = text) ∧
    (∀ ws ∈ clients, sendOk ws = true →
      (ws, text) ∈ (wsBroadcast clients sendOk text).1 ∧
      ws ∈ (wsBroadcast clients sendOk text).2) ∧
    (∀ ws ∈ clients, sendOk ws = false →
      ws ∉ (wsBroadcast clients sendOk text).2) := by
  refine ⟨?_, ?_, ?_⟩
  · rintro ⟨w, t⟩ hd
    exact ((broadcast_delivered_iff clients sendOk text w t).mp hd).2.2
  · intro ws hin hok
    exact ⟨(broadcast_delivered_iff clients sendOk text ws text).mpr
      ⟨hin, hok, rfl⟩,
      (broadcast_after_mem clients sendOk text ws hin).mpr hok⟩
  · intro ws hin hfail hmem
    have := (broadcast_after_mem clients sendOk text ws hin).mp hmem
    rw [hfail] at this
    exact Bool.false_ne_true this

/-- C3 witness: with clients {0, 1, 2} and client 1 failing, clients 0 and 2
receive the text and survive while client 1 is removed. -/
theorem c3_broadcast_isolation_witness :
    ((0, "T") ∈ (wsBroadcast [0, 1, 2] (fun ws => ws != 1) "T").1 ∧
      0 ∈ (wsBroadcast [0, 1, 2] (fun ws => ws != 1) "T").2) ∧
    1 ∉ (wsBroadcast [0, 1, 2] (fun ws => ws != 1) "T").2 :=
  ⟨(c3_broadcast_isolation [0, 1, 2] (fun ws => ws != 1) "T").2.1 0
      (by decide) (by decide),
   (c3_broadcast_isolation [0, 1, 2] (fun ws => ws != 1) "T").2.2 1
      (by decide) (by decide)⟩

/-- C7: the claim that an observer is removed upon its first failed send —
including the initial snapshot send at registration — is false: the initial
snapshot send happens outside any try block, so when it fails the handler
raises but the observer stays in the registered set. -/
theorem c7_failed_initial_send_stays_registered_cex :
    0 ∈ (sensorsWsConnect [] 0 false).1 ∧
    (sensorsWsConnect [] 0 false).2 = true := by
  decide

/-- C7 (amended): an observer is removed on disconnect and on a failed send
within a broadcast call; but an observer whose initial snapshot send fails
at registration time stays registered (until a later broadcast to it
fails). -/
theorem c7_observer_removal_policy (clients : List ℕ) (ws : ℕ)
    (sendOk : ℕ → Bool) (text : String) :
    ws ∉ sensorsWsDisconnect clients ws ∧
    (ws ∈ clients → sendOk ws = false →
      ws ∉ (wsBroadcast clients sendOk text).2) ∧
    ws ∈ (sensorsWsConnect clients ws false).1 := by
  refine ⟨?_, ?_, ?_⟩
  · intro h
    have := (List.mem_filter.mp h).2
    simp at this
  · intro hin hfail hmem
    have := (broadcast_after_mem clients sendOk text ws hin).mp hmem
    rw [hfail] at this
    exact Bool.false_ne_true this
  · simp [sensorsWsConnect]

/-- C7 witness: with clients {0, 1} and every send failing, client 1 is
removed by the broadcast; it is removed by a disconnect; and it stays
registered after a failed initial snapshot send. -/
theorem c7_observer_removal_policy_witness :
    1 ∉ sensorsWsDisconnect [0, 1] 1 ∧
    1 ∉ (wsBroadcast [0, 1] (fun _ => false) "T").2 ∧
    1 ∈ (sensorsWsConnect [0, 1] 1 false).1 :=
  ⟨(c7_observer_removal_policy [0, 1] 1 (fun _ => false) "T").1,
   (c7_observer_removal_policy [0, 1] 1 (fun _ => false) "T").2.1
      (by decide) rfl,
   (c7_observer_removal_policy [0, 1] 1 (fun _ => false) "T").2.2⟩

end Rockfall
